import Mathlib

/-!
Shallow embedding of the session/token core of the HMS frontend:
the Redux auth slice (`src/store/slices/authSlice.ts`), the axios
response-error interceptor and `apiService` object of the HTTP client
module (third document in `src/store/slices/healthDataSlice.ts`), the
auth-header builder (`getAuthHeaders`), and the route guard
(`src/components/routing/ProtectedRoute.tsx`).

JavaScript `string | null` values are modelled as `Option String`;
JS truthiness of such a value (null and "" are falsy) is `truthyStr`.
-/

namespace HMS

/-- Truthiness of a JS `string | null | undefined` value: `null`/`undefined`
and the empty string are falsy, every other string is truthy. -/
def truthyStr : Option String → Bool
  | none => false
  | some s => !(s == "")

/-- The `User` interface of `authSlice.ts`. -/
structure User where
  id : String
  email : String
  firstName : String
  lastName : String
  role : String
  profileImage : Option String
deriving DecidableEq, Repr

/-- The `AuthState` interface of `authSlice.ts`. -/
structure AuthState where
  accessToken : Option String
  refreshToken : Option String
  isAuthenticated : Bool
  loading : Bool
  user : Option User
  userRole : Option String
  error : Option String
deriving DecidableEq, Repr

/-- The `initialState` constant of `authSlice.ts`: every field null/false. -/
def initialState : AuthState :=
  { accessToken := none, refreshToken := none, isAuthenticated := false,
    loading := false, user := none, userRole := none, error := none }

/-- The `AuthData` payload interface of the `setAuthData` action:
`accessToken: string; refreshToken?: string; user: User`. -/
structure AuthData where
  accessToken : String
  refreshToken : Option String
  user : User
deriving DecidableEq, Repr

/-- The `setAuthData` reducer. The line
`state.refreshToken = action.payload.refreshToken || state.refreshToken`
keeps the previous refresh token when the payload's one is absent or the
empty string (both falsy in JS). -/
def setAuthData (s : AuthState) (p : AuthData) : AuthState :=
  { s with
    loading := false,
    isAuthenticated := true,
    accessToken := some p.accessToken,
    refreshToken :=
      match p.refreshToken with
      | some r => if r == "" then s.refreshToken else some r
      | none => s.refreshToken,
    user := some p.user,
    userRole := some p.user.role,
    error := none }

/-- The `setError` reducer. -/
def setError (s : AuthState) (m : String) : AuthState :=
  { s with loading := false, error := some m }

/-- The `clearError` reducer. -/
def clearError (s : AuthState) : AuthState :=
  { s with error := none }

/-- The `updateUser` reducer. -/
def updateUser (s : AuthState) (u : User) : AuthState :=
  { s with user := some u }

/-- The `resetAuth` reducer: every field back to its initial value. -/
def resetAuth (s : AuthState) : AuthState :=
  { s with
    loading := false,
    isAuthenticated := false,
    accessToken := none,
    refreshToken := none,
    user := none,
    userRole := none,
    error := none }

/-- Payload returned by a fulfilled `checkAuth` thunk: the tokens and user it
read from the store (typed non-null for access token and user, since the
thunk only fulfils after checking their truthiness). -/
structure CheckAuthPayload where
  accessToken : String
  refreshToken : Option String
  user : User
deriving DecidableEq, Repr

/-- The `checkAuth.pending` extra reducer. -/
def checkAuthPending (s : AuthState) : AuthState :=
  { s with loading := true, error := none }

/-- The `checkAuth.fulfilled` extra reducer. -/
def checkAuthFulfilled (s : AuthState) (p : CheckAuthPayload) : AuthState :=
  { s with
    loading := false,
    isAuthenticated := true,
    accessToken := some p.accessToken,
    refreshToken := p.refreshToken,
    user := some p.user,
    userRole := some p.user.role }

/-- The `checkAuth.rejected` extra reducer. -/
def checkAuthRejected (s : AuthState) (m : String) : AuthState :=
  { s with
    loading := false,
    isAuthenticated := false,
    accessToken := none,
    refreshToken := none,
    user := none,
    userRole := none,
    error := some m }

/-- The body of the `checkAuth` thunk: fulfil with the store's current tokens
and user when `isAuthenticated && accessToken && user` holds, otherwise
reject with "No access token found". Dispatching the thunk first applies the
pending reducer, then the fulfilled or rejected one. -/
def checkAuthThunk (s0 : AuthState) : AuthState :=
  let s := checkAuthPending s0
  match s.accessToken, s.user with
  | some a, some u =>
      if s.isAuthenticated && !(a == "") then
        checkAuthFulfilled s { accessToken := a, refreshToken := s.refreshToken, user := u }
      else
        checkAuthRejected s "No access token found"
  | _, _ => checkAuthRejected s "No access token found"

/-- Actions the auth slice handles. `checkAuthFulfilled` carries an arbitrary
payload of the thunk's return type, which covers every interleaving of the
asynchronous dispatch (the actual payload is always one produced by
`checkAuthThunk`, a subset of these). -/
inductive Action where
  | setAuthData (p : AuthData)
  | setError (m : String)
  | clearError
  | updateUser (u : User)
  | resetAuth
  | checkAuthPending
  | checkAuthFulfilled (p : CheckAuthPayload)
  | checkAuthRejected (m : String)
deriving Repr

/-- Dispatching one action through the auth slice's reducers. -/
def applyAction (s : AuthState) : Action → AuthState
  | Action.setAuthData p => setAuthData s p
  | Action.setError m => setError s m
  | Action.clearError => clearError s
  | Action.updateUser u => updateUser s u
  | Action.resetAuth => resetAuth s
  | Action.checkAuthPending => checkAuthPending s
  | Action.checkAuthFulfilled p => checkAuthFulfilled s p
  | Action.checkAuthRejected m => checkAuthRejected s m

/-- Auth states reachable from `initialState` through the slice's operations. -/
inductive Reachable : AuthState → Prop where
  | init : Reachable initialState
  | step {s : AuthState} (a : Action) : Reachable s → Reachable (applyAction s a)

/-! HTTP client module: header builder and the response-error interceptor. -/

/-- JS object spread `\x7b...a, ...b\x7d` on header maps: keys of `b` override `a`. -/
def mergeHeaders (a b : List (String × String)) : List (String × String) :=
  a.filter (fun p => b.all (fun q => !(q.1 == p.1))) ++ b

/-- JS property assignment `headers[k] = v` on a header map. -/
def setHeader (l : List (String × String)) (k v : String) : List (String × String) :=
  l.filter (fun p => !(p.1 == k)) ++ [(k, v)]

/-- The `getAuthHeaders` function (`src/utils/getAuthHeaders.ts`): starts from
Content-Type plus the caller's additional headers, and injects
`Authorization: Bearer <accessToken>` when the store's access token is truthy. -/
def getAuthHeaders (st : AuthState) (additionalHeaders : List (String × String)) :
    List (String × String) :=
  let headers := mergeHeaders [("Content-Type", "application/json")] additionalHeaders
  match st.accessToken with
  | some t => if t == "" then headers else setHeader headers "Authorization" ("Bearer " ++ t)
  | none => headers

/-- A backend error body's `message` field: the code types it `string`, but the
backend convention (and some callers) also allow `string[]`. -/
inductive JsonMsg where
  | str (s : String)
  | arr (l : List String)
deriving DecidableEq, Repr

/-- The part of an axios error response the interceptor looks at:
`error.response.status` and `error.response.data?.message`. -/
structure ErrorResponse where
  status : Nat
  message : Option JsonMsg
deriving DecidableEq, Repr

/-- The part of an `AxiosRequestConfig` the interceptor looks at, together
with the `_retry` marker it adds. -/
structure RequestConfig where
  url : String
  headers : List (String × String)
  _retry : Bool
deriving DecidableEq, Repr

/-- An axios rejection: the original request config plus the response, if any
(`none` models a network error / timeout with no response). -/
structure AxiosError where
  config : RequestConfig
  response : Option ErrorResponse
deriving DecidableEq, Repr

/-- Models `error.response?.status`. -/
def errStatus (e : AxiosError) : Option Nat :=
  e.response.map ErrorResponse.status

/-- Models `error.response?.data?.message`. -/
def errMessage (e : AxiosError) : Option JsonMsg :=
  match e.response with
  | some r => r.message
  | none => none

/-- Models `error.response?.data?.message || "Request failed"` followed by
`new Error(errorMessage)`: an absent or empty-string message falls back to
the generic text; an array value is truthy (even when empty), and the
`Error` constructor coerces it to a string, which in JavaScript joins the
elements with "," and no space. -/
def jsErrorMessage : Option JsonMsg → String
  | none => "Request failed"
  | some (JsonMsg.str s) => if s == "" then "Request failed" else s
  | some (JsonMsg.arr l) => String.intercalate "," l

/-- Result of the `axios.post(API_URL + "auth/refresh", ...)` network call:
either a new token pair, or a throw (network error or non-2xx status). -/
inductive RefreshResult where
  | success (accessToken refreshToken : String)
  | failure
deriving DecidableEq, Repr

/-- What the interceptor resolves to: re-issue the (marked) original request
through `api(originalRequest)`, or reject with an `Error` message. -/
inductive InterceptorOutcome where
  | retryRequest (req : RequestConfig)
  | rejectWith (msg : String)
deriving DecidableEq, Repr

/-- Observable effects of one run of the response-error interceptor. -/
structure HandlerTrace where
  refreshCalled : Bool
  dispatchedResetAuth : Bool
  dispatchedSetAuthData : Option AuthData
  outcome : InterceptorOutcome
deriving DecidableEq, Repr

/-- The response-error interceptor of `api.interceptors.response.use`, run
against the auth-store snapshot `st`, with `rr` the outcome the refresh
network call would have. Returns the trace of effects and the auth state
after the dispatches it performs.

Faithful details: the refresh branch requires status 401, `_retry` unset and
a URL other than "/auth/login"; `_retry` is set before anything else; a falsy
refresh token resets the session and rejects without any network call; on a
successful refresh with a null store user, `store.getState().auth.user!` is
null at runtime, so the `setAuthData` reducer throws reading
`action.payload.user.role`, the throw is caught by the surrounding `catch`,
and that path behaves like a refresh failure (reset plus session-expired
rejection) with the store left unchanged by the failed dispatch. -/
def responseErrorInterceptor (st : AuthState) (e : AxiosError) (rr : RefreshResult) :
    HandlerTrace × AuthState :=
  if (errStatus e == some 401) && !e.config._retry && !(e.config.url == "/auth/login") then
    let original : RequestConfig := { e.config with _retry := true }
    if truthyStr st.refreshToken then
      match rr with
      | RefreshResult.success a r =>
          match st.user with
          | some u =>
              let payload : AuthData := { accessToken := a, refreshToken := some r, user := u }
              let st2 := setAuthData st payload
              let retried : RequestConfig :=
                { original with headers := mergeHeaders original.headers (getAuthHeaders st2 []) }
              (⟨true, false, some payload, InterceptorOutcome.retryRequest retried⟩, st2)
          | none =>
              (⟨true, true, none,
                InterceptorOutcome.rejectWith "Session expired. Please log in again."⟩,
               resetAuth st)
      | RefreshResult.failure =>
          (⟨true, true, none,
            InterceptorOutcome.rejectWith "Session expired. Please log in again."⟩,
           resetAuth st)
    else
      (⟨false, true, none, InterceptorOutcome.rejectWith "No refresh token available"⟩,
       resetAuth st)
  else
    (⟨false, false, none, InterceptorOutcome.rejectWith (jsErrorMessage (errMessage e))⟩, st)

/-- The HTTP client module has no module-level refresh-in-flight flag: each
rejected response runs the interceptor independently. When several 401
responses are delivered before any refresh completes, each handler executes
its synchronous prefix (the 401/`_retry`/URL checks, the refresh-token read,
and the issuing of its own `axios.post` to the refresh endpoint) against the
same store snapshot. This counts the refresh network calls such a batch of
concurrently failing requests issues. -/
def concurrentRefreshCalls (st : AuthState) (es : List AxiosError) : Nat :=
  (es.filter (fun e => (responseErrorInterceptor st e RefreshResult.failure).1.refreshCalled)).length

/-- Property names defined on the `apiService` object literal of the HTTP
client module (in source order). -/
def apiServiceKeys : List String := ["get", "post", "put", "delete", "setToken"]

/-- Whether `apiService` exposes a method of the given name. -/
def apiServiceExposes (verb : String) : Bool := apiServiceKeys.contains verb

/-- The `ApiResponse` shape the `apiService` methods resolve with. -/
structure ApiResponse (T : Type) where
  data : T
  status : Nat
deriving DecidableEq, Repr

/-- Underlying axios call outcome seen by an `apiService` method body. -/
inductive AxiosOutcome (T : Type) where
  | success (data : T) (status : Nat)
  | failure (message : String)
deriving DecidableEq, Repr

/-- Shared body of the `apiService.get/post/put/delete` methods: wrap a
successful axios response as `\x7b data, status \x7d`, rethrow a failure's message. -/
def apiServiceWrap {T : Type} : AxiosOutcome T → Except String (ApiResponse T)
  | AxiosOutcome.success d s => Except.ok { data := d, status := s }
  | AxiosOutcome.failure m => Except.error m

/-! Route guard (`ProtectedRoute.tsx`). -/

/-- What the `ProtectedRoute` component renders. -/
inductive RouteDecision where
  | loadingPlaceholder
  | redirectToLogin
  | redirectToDashboard
  | renderRequestedView
deriving DecidableEq, Repr

/-- The `ProtectedRoute` decision: `isAuthenticated` and `requiredRole` are
props, `loading` and `user` come from the auth store. `user?.role !==
requiredRole` is modelled by comparing `st.user.map User.role` with
`some r` (a null user yields `none`, which differs from every `some r`). -/
def protectedRoute (isAuthenticated : Bool) (requiredRole : Option String)
    (st : AuthState) : RouteDecision :=
  if st.loading then RouteDecision.loadingPlaceholder
  else if !isAuthenticated then RouteDecision.redirectToLogin
  else
    match requiredRole with
    | some r =>
        if !(st.user.map User.role == some r) then RouteDecision.redirectToDashboard
        else RouteDecision.renderRequestedView
    | none => RouteDecision.renderRequestedView

/-! Concrete sample data used by witnesses and counterexamples. -/

/-- A sample patient user. -/
def demoUser : User :=
  { id := "u1", email := "u1@example.com", firstName := "Pat", lastName := "Lee",
    role := "patient", profileImage := none }

/-- A sample authenticated store state, reached by a `setAuthData` dispatch. -/
def authedState : AuthState :=
  setAuthData initialState { accessToken := "A1", refreshToken := some "R1", user := demoUser }

/-- A 401 rejection of a protected GET that has not been retried yet. -/
def err401a : AxiosError :=
  { config := { url := "/patients/1", headers := [], _retry := false },
    response := some { status := 401, message := none } }

/-- A second, distinct 401 rejection in the same concurrent batch. -/
def err401b : AxiosError :=
  { config := { url := "/appointments", headers := [], _retry := false },
    response := some { status := 401, message := none } }

/-- A 401 rejection whose request was already replayed once. -/
def retriedErr : AxiosError :=
  { config := { url := "/patients/1", headers := [], _retry := true },
    response := some { status := 401, message := none } }

/-- A 400 failure whose error body carries an array message. -/
def arrErr : AxiosError :=
  { config := { url := "/doctors/1", headers := [], _retry := false },
    response := some { status := 400,
                       message := some (JsonMsg.arr ["Invalid email", "Invalid password"]) } }

/-- A 401 rejection of the login endpoint itself. -/
def loginErr : AxiosError :=
  { config := { url := "/auth/login", headers := [], _retry := false },
    response := some { status := 401, message := some (JsonMsg.str "Invalid credentials") } }

/-! Theorems. -/

/-- C1: every auth state reachable from the initial state through the slice's
operations (setAuthData, setError, clearError, updateUser, resetAuth, and the
checkAuth pending/fulfilled/rejected transitions) satisfies: if
`isAuthenticated` is true then both the access token and the user are
non-null. -/
theorem auth_invariant_reachable (s : AuthState) (h : Reachable s) :
    s.isAuthenticated = true → s.accessToken ≠ none ∧ s.user ≠ none := by
  induction h with
  | init => intro ha; simp [initialState] at ha
  | step a _ ih =>
    cases a with
    | setAuthData p => intro _; simp [applyAction, setAuthData]
    | setError m =>
        intro ha
        simp only [applyAction, setError] at ha ⊢
        exact ih ha
    | clearError =>
        intro ha
        simp only [applyAction, clearError] at ha ⊢
        exact ih ha
    | updateUser u =>
        intro ha
        simp only [applyAction, updateUser] at ha ⊢
        exact ⟨(ih ha).1, by simp⟩
    | resetAuth => intro ha; simp [applyAction, resetAuth] at ha
    | checkAuthPending =>
        intro ha
        simp only [applyAction, checkAuthPending] at ha ⊢
        exact ih ha
    | checkAuthFulfilled p => intro _; simp [applyAction, checkAuthFulfilled]
    | checkAuthRejected m => intro ha; simp [applyAction, checkAuthRejected] at ha

/-- Witness for C1 at the concrete state reached by one `setAuthData`. -/
theorem auth_invariant_reachable_witness :
    (applyAction initialState
        (Action.setAuthData { accessToken := "A1", refreshToken := some "R1", user := demoUser })).accessToken ≠ none ∧
    (applyAction initialState
        (Action.setAuthData { accessToken := "A1", refreshToken := some "R1", user := demoUser })).user ≠ none :=
  auth_invariant_reachable _
    (Reachable.step (Action.setAuthData { accessToken := "A1", refreshToken := some "R1", user := demoUser })
      Reachable.init) rfl

/-- C2: when a request that is not the login call and has not been retried
receives 401, and the refresh network call fails (network error or non-2xx),
the interceptor dispatches `resetAuth` — leaving the store in the empty
unauthenticated state — and rejects with the session-expired error message. -/
theorem refresh_failure_resets_session (st : AuthState) (e : AxiosError)
    (h401 : errStatus e = some 401) (hretry : e.config._retry = false)
    (hurl : e.config.url ≠ "/auth/login") (htok : truthyStr st.refreshToken = true) :
    (responseErrorInterceptor st e RefreshResult.failure).1.dispatchedResetAuth = true ∧
    (responseErrorInterceptor st e RefreshResult.failure).2 = initialState ∧
    (responseErrorInterceptor st e RefreshResult.failure).1.outcome =
      InterceptorOutcome.rejectWith "Session expired. Please log in again." := by
  have hcond : ((errStatus e == some 401) && !e.config._retry
      && !(e.config.url == "/auth/login")) = true := by
    simp [h401, hretry, hurl]
  simp [responseErrorInterceptor, hcond, htok, resetAuth, initialState]

/-- Witness for C2: an authenticated store, a fresh 401, a failing refresh. -/
theorem refresh_failure_resets_session_witness :
    (responseErrorInterceptor authedState err401a RefreshResult.failure).1.dispatchedResetAuth = true ∧
    (responseErrorInterceptor authedState err401a RefreshResult.failure).2 = initialState ∧
    (responseErrorInterceptor authedState err401a RefreshResult.failure).1.outcome =
      InterceptorOutcome.rejectWith "Session expired. Please log in again." :=
  refresh_failure_resets_session authedState err401a rfl rfl (by decide) rfl

/-- C3: a 401 response to the login endpoint never enters the refresh branch:
no refresh call is made, the store is untouched, and the call rejects with the
message extracted from the server's error body (or the generic fallback). -/
theorem login_401_no_refresh (st : AuthState) (e : AxiosError) (rr : RefreshResult)
    (hurl : e.config.url = "/auth/login") (h401 : errStatus e = some 401) :
    (responseErrorInterceptor st e rr).1.refreshCalled = false ∧
    (responseErrorInterceptor st e rr).1.dispatchedResetAuth = false ∧
    (responseErrorInterceptor st e rr).2 = st ∧
    (responseErrorInterceptor st e rr).1.outcome =
      InterceptorOutcome.rejectWith (jsErrorMessage (errMessage e)) := by
  have hcond : ((errStatus e == some 401) && !e.config._retry
      && !(e.config.url == "/auth/login")) = false := by
    simp [hurl]
  simp [responseErrorInterceptor, hcond]

/-- Witness for C3 at a concrete 401 login rejection. -/
theorem login_401_no_refresh_witness :
    (responseErrorInterceptor authedState loginErr RefreshResult.failure).1.refreshCalled = false ∧
    (responseErrorInterceptor authedState loginErr RefreshResult.failure).1.dispatchedResetAuth = false ∧
    (responseErrorInterceptor authedState loginErr RefreshResult.failure).2 = authedState ∧
    (responseErrorInterceptor authedState loginErr RefreshResult.failure).1.outcome =
      InterceptorOutcome.rejectWith (jsErrorMessage (errMessage loginErr)) :=
  login_401_no_refresh authedState loginErr RefreshResult.failure rfl rfl

/-- Helper: a rejected-and-not-yet-retried request with `_retry` already set
takes the generic branch of the interceptor. -/
theorem interceptor_skips_retried (st : AuthState) (e : AxiosError) (rr : RefreshResult)
    (hretry : e.config._retry = true) :
    (responseErrorInterceptor st e rr).1.refreshCalled = false ∧
    (responseErrorInterceptor st e rr).1.outcome =
      InterceptorOutcome.rejectWith (jsErrorMessage (errMessage e)) := by
  have hcond : ((errStatus e == some 401) && !e.config._retry
      && !(e.config.url == "/auth/login")) = false := by
    simp [hretry]
  simp [responseErrorInterceptor, hcond]

/-- Helper: any replay the interceptor emits carries the `_retry` marker. -/
theorem interceptor_replay_marked (st : AuthState) (e : AxiosError) (rr : RefreshResult)
    (req : RequestConfig)
    (hout : (responseErrorInterceptor st e rr).1.outcome = InterceptorOutcome.retryRequest req) :
    req._retry = true := by
  by_cases hcond : ((errStatus e == some 401) && !e.config._retry
      && !(e.config.url == "/auth/login")) = true
  · by_cases htok : truthyStr st.refreshToken = true
    · cases rr with
      | success a r =>
          cases hu : st.user with
          | some u =>
              simp [responseErrorInterceptor, hcond, htok, hu] at hout
              subst hout
              rfl
          | none => simp [responseErrorInterceptor, hcond, htok, hu] at hout
      | failure => simp [responseErrorInterceptor, hcond, htok] at hout
    · simp only [Bool.not_eq_true] at htok
      simp [responseErrorInterceptor, hcond, htok] at hout
  · simp only [Bool.not_eq_true] at hcond
    simp [responseErrorInterceptor, hcond] at hout

/-- C4: at most one refresh and one replay per original request. First, a
request whose `_retry` flag is already set never triggers a refresh and is
never replayed again. Second, the replay the interceptor emits always carries
`_retry = true`. Third, combining the two: handling any later failure of an
emitted replay performs no further refresh and no further replay, so the
retry recursion stops after one re-issue. -/
theorem single_retry_per_request (st : AuthState) (e : AxiosError) (rr : RefreshResult) :
    (e.config._retry = true →
      (responseErrorInterceptor st e rr).1.refreshCalled = false ∧
      ∀ req, (responseErrorInterceptor st e rr).1.outcome ≠ InterceptorOutcome.retryRequest req) ∧
    (∀ req, (responseErrorInterceptor st e rr).1.outcome = InterceptorOutcome.retryRequest req →
      req._retry = true) ∧
    (∀ req st2 e2 rr2,
      (responseErrorInterceptor st e rr).1.outcome = InterceptorOutcome.retryRequest req →
      e2.config = req →
      (responseErrorInterceptor st2 e2 rr2).1.refreshCalled = false ∧
      ∀ req2, (responseErrorInterceptor st2 e2 rr2).1.outcome ≠
        InterceptorOutcome.retryRequest req2) := by
  refine ⟨?_, ?_, ?_⟩
  · intro hretry
    refine ⟨(interceptor_skips_retried st e rr hretry).1, ?_⟩
    intro req hreq
    rw [(interceptor_skips_retried st e rr hretry).2] at hreq
    exact InterceptorOutcome.noConfusion hreq
  · intro req hout
    exact interceptor_replay_marked st e rr req hout
  · intro req st2 e2 rr2 hout hcfg
    have hflag : e2.config._retry = true := by
      rw [hcfg]
      exact interceptor_replay_marked st e rr req hout
    refine ⟨(interceptor_skips_retried st2 e2 rr2 hflag).1, ?_⟩
    intro req2 hreq2
    rw [(interceptor_skips_retried st2 e2 rr2 hflag).2] at hreq2
    exact InterceptorOutcome.noConfusion hreq2

/-- Witness for C4: the already-retried 401 triggers no further refresh. -/
theorem single_retry_per_request_witness :
    (responseErrorInterceptor authedState retriedErr RefreshResult.failure).1.refreshCalled = false :=
  ((single_retry_per_request authedState retriedErr RefreshResult.failure).1 rfl).1

/-- C5: a fresh non-login 401 handled while the store holds no (truthy)
refresh token resets the session to the empty unauthenticated state and
rejects, without any refresh network call. -/
theorem refresh_unavailable (st : AuthState) (e : AxiosError) (rr : RefreshResult)
    (h401 : errStatus e = some 401) (hretry : e.config._retry = false)
    (hurl : e.config.url ≠ "/auth/login") (htok : truthyStr st.refreshToken = false) :
    (responseErrorInterceptor st e rr).1.refreshCalled = false ∧
    (responseErrorInterceptor st e rr).1.dispatchedResetAuth = true ∧
    (responseErrorInterceptor st e rr).2 = initialState ∧
    (responseErrorInterceptor st e rr).1.outcome =
      InterceptorOutcome.rejectWith "No refresh token available" := by
  have hcond : ((errStatus e == some 401) && !e.config._retry
      && !(e.config.url == "/auth/login")) = true := by
    simp [h401, hretry, hurl]
  simp [responseErrorInterceptor, hcond, htok, resetAuth, initialState]

/-- Witness for C5: a fresh 401 against the empty store. -/
theorem refresh_unavailable_witness :
    (responseErrorInterceptor initialState err401a RefreshResult.failure).1.refreshCalled = false ∧
    (responseErrorInterceptor initialState err401a RefreshResult.failure).1.dispatchedResetAuth = true ∧
    (responseErrorInterceptor initialState err401a RefreshResult.failure).2 = initialState ∧
    (responseErrorInterceptor initialState err401a RefreshResult.failure).1.outcome =
      InterceptorOutcome.rejectWith "No refresh token available" :=
  refresh_unavailable initialState err401a RefreshResult.failure rfl rfl (by decide) rfl

/-- C6: the route guard renders the loading placeholder while the auth state
is loading; else redirects to login when not authenticated; else redirects to
/dashboard when a required role is specified and the current user's role does
not equal it; otherwise renders the requested view. -/
theorem route_guard_decision (isAuth : Bool) (reqRole : Option String) (st : AuthState) :
    (st.loading = true → protectedRoute isAuth reqRole st = RouteDecision.loadingPlaceholder) ∧
    (st.loading = false → isAuth = false →
      protectedRoute isAuth reqRole st = RouteDecision.redirectToLogin) ∧
    (∀ r u, st.loading = false → isAuth = true → reqRole = some r → st.user = some u →
      u.role ≠ r → protectedRoute isAuth reqRole st = RouteDecision.redirectToDashboard) ∧
    (st.loading = false → isAuth = true →
      (reqRole = none ∨ ∃ u, st.user = some u ∧ reqRole = some u.role) →
      protectedRoute isAuth reqRole st = RouteDecision.renderRequestedView) := by
  refine ⟨?_, ?_, ?_, ?_⟩
  · intro hl
    simp [protectedRoute, hl]
  · intro hl ha
    simp [protectedRoute, hl, ha]
  · intro r u hl ha hr hu hne
    simp [protectedRoute, hl, ha, hr, hu, hne]
  · intro hl ha hcase
    rcases hcase with hr | ⟨u, hu, hr⟩
    · simp [protectedRoute, hl, ha, hr]
    · simp [protectedRoute, hl, ha, hr, hu]

/-- Witness for C6: an authenticated patient hitting an admin-only route is
sent to /dashboard. -/
theorem route_guard_decision_witness :
    protectedRoute true (some "admin") authedState = RouteDecision.redirectToDashboard :=
  (route_guard_decision true (some "admin") authedState).2.2.1 "admin" demoUser
    rfl rfl rfl rfl (by decide)

/-- C7 counterexample: a failed response whose error body is the array
`["Invalid email", "Invalid password"]` is rejected with the message
"Invalid email,Invalid password" (JavaScript array-to-string coercion inside
`new Error`), not with the elements joined by ", ". -/
theorem array_message_join_counterexample :
    (responseErrorInterceptor initialState arrErr RefreshResult.failure).1.outcome =
      InterceptorOutcome.rejectWith "Invalid email,Invalid password" ∧
    (responseErrorInterceptor initialState arrErr RefreshResult.failure).1.outcome ≠
      InterceptorOutcome.rejectWith "Invalid email, Invalid password" := by
  constructor
  · rfl
  · decide

/-- C7 (amended): for every failed response that does not enter the 401
refresh branch and whose error body message is a string array, the rejection's
message equals the array's elements joined with "," — a bare comma, with no
space (the interceptor never calls join; the `Error` constructor coerces the
array with JavaScript's default separator). -/
theorem array_message_join_amended (st : AuthState) (e : AxiosError) (rr : RefreshResult)
    (l : List String) (hmsg : errMessage e = some (JsonMsg.arr l))
    (hpath : ((errStatus e == some 401) && !e.config._retry
      && !(e.config.url == "/auth/login")) = false) :
    (responseErrorInterceptor st e rr).1.outcome =
      InterceptorOutcome.rejectWith (String.intercalate "," l) := by
  simp [responseErrorInterceptor, hpath, hmsg, jsErrorMessage]

/-- Witness for C7 (amended) at the concrete array-message failure. -/
theorem array_message_join_amended_witness :
    (responseErrorInterceptor initialState arrErr RefreshResult.failure).1.outcome =
      InterceptorOutcome.rejectWith
        (String.intercalate "," ["Invalid email", "Invalid password"]) :=
  array_message_join_amended initialState arrErr RefreshResult.failure
    ["Invalid email", "Invalid password"] rfl rfl

/-- C8: the `apiService` object literal defines the methods get, post, put and
delete (plus setToken), but no patch method — even though pages invoke
`apiService.patch`, which is therefore undefined at runtime. -/
theorem api_service_verbs :
    apiServiceExposes "get" = true ∧ apiServiceExposes "post" = true ∧
    apiServiceExposes "put" = true ∧ apiServiceExposes "delete" = true ∧
    apiServiceExposes "patch" = false := by decide

/-- C9 counterexample: two concurrently failing 401 requests against a store
holding a refresh token issue two refresh network calls, not one. -/
theorem concurrent_refresh_counterexample :
    concurrentRefreshCalls authedState [err401a, err401b] = 2 ∧
    concurrentRefreshCalls authedState [err401a, err401b] ≠ 1 := by
  decide

/-- C9 (amended): there is no refresh coalescing — every concurrently failing
request that enters the refresh branch issues its own refresh network call,
so a batch of N such requests makes N refresh calls (each then independently
retried or failed). -/
theorem concurrent_refresh_one_per_request (st : AuthState) (es : List AxiosError)
    (h : ∀ e ∈ es, (responseErrorInterceptor st e RefreshResult.failure).1.refreshCalled = true) :
    concurrentRefreshCalls st es = es.length := by
  induction es with
  | nil => rfl
  | cons e es ih =>
      have he := h e (List.mem_cons_self e es)
      have ih2 := ih (fun e2 he2 => h e2 (List.mem_cons_of_mem e he2))
      simp only [concurrentRefreshCalls, List.filter_cons, he, if_true, List.length_cons] at ih2 ⊢
      simp [ih2]

/-- Witness for C9 (amended): the two-request batch makes two refresh calls. -/
theorem concurrent_refresh_one_per_request_witness :
    concurrentRefreshCalls authedState [err401a, err401b] =
      ([err401a, err401b] : List AxiosError).length :=
  concurrent_refresh_one_per_request authedState [err401a, err401b] (by decide)

/-- C10: `setAuthData` keeps the previous refresh token exactly when the
payload's refresh token is absent or the empty string, and takes the
payload's otherwise; access token, user and userRole always come from the
payload, `isAuthenticated` becomes true and the error is cleared. -/
theorem set_auth_data_refresh_retention (s : AuthState) (p : AuthData) :
    ((p.refreshToken = none ∨ p.refreshToken = some "") →
      (setAuthData s p).refreshToken = s.refreshToken) ∧
    (∀ r, p.refreshToken = some r → r ≠ "" →
      (setAuthData s p).refreshToken = some r) ∧
    (setAuthData s p).accessToken = some p.accessToken ∧
    (setAuthData s p).user = some p.user ∧
    (setAuthData s p).userRole = some p.user.role ∧
    (setAuthData s p).isAuthenticated = true ∧
    (setAuthData s p).error = none := by
  refine ⟨?_, ?_, rfl, rfl, rfl, rfl, rfl⟩
  · rintro (hp | hp) <;> simp [setAuthData, hp]
  · intro r hp hr
    simp [setAuthData, hp, hr]

/-- Witness for C10: a payload without a refresh token keeps the stored one. -/
theorem set_auth_data_refresh_retention_witness :
    (setAuthData authedState
        { accessToken := "A2", refreshToken := none, user := demoUser }).refreshToken =
      authedState.refreshToken ∧
    (setAuthData authedState
        { accessToken := "A2", refreshToken := none, user := demoUser }).isAuthenticated = true :=
  ⟨(set_auth_data_refresh_retention authedState
      { accessToken := "A2", refreshToken := none, user := demoUser }).1 (Or.inl rfl),
   (set_auth_data_refresh_retention authedState
      { accessToken := "A2", refreshToken := none, user := demoUser }).2.2.2.2.2.1⟩

end HMS
